import Mathlib

/-!
Shallow embedding of the Kismet external helper bridge (`src/kis_external.cc`).

This file models the per-endpoint state and the operations of
`kis_external_interface` as pure Lean functions, and proves properties of
them.  Machine 32-bit arithmetic is modelled with `Nat` and explicit
`% 2^32`.  Effects on external collaborators (event bus, IPC registry,
signals, message bus, transport writes) are recorded in explicit fields of
the endpoint state so that theorems can speak about them.
-/

namespace KisExternal

/-- An observable action performed on a host-server HTTP connection by the
bridge, in order.  `append_header`, `set_status`, `put_data` on the response
stream, and `complete` of the response stream from
`handle_packet_http_response`. -/
inductive ConnEvent
  | header (name value : String)
  | status (code : Nat)
  | body (data : String)
  | complete
  deriving Repr, DecidableEq

/-- One parked HTTP proxy session (`kis_external_http_session`): the host
connection (recorded as its ordered event list plus the response-stream
cancellation flag) and the gate (`conditional_locker<int>`), recorded as a
released flag plus the value it was released with. -/
structure HttpSession where
  conn_events : List ConnEvent
  stream_cancelled : Bool
  gate_released : Bool
  gate_value : Int
  deriving Repr, DecidableEq

/-- The `HttpResponse` sub-message (`KismetExternalHttp::HttpResponse`):
`req_id`, repeated `header_content`, optional `resultcode`, optional
`content`, optional `close_response`.  Protobuf optional fields are
`Option`s; `has_x()` is `(x ≠ none)`. -/
structure HttpResponseMsg where
  req_id : Nat
  header_content : List (String × String)
  resultcode : Option Nat
  content : Option String
  close_response : Option Bool
  deriving Repr, DecidableEq

/-- The decoded content of a command envelope.  The concrete protobuf
sub-message schemas are external to `kis_external.cc`; each handler's
`ParseFromString` is modelled as succeeding exactly when the payload is the
constructor that handler expects, with `malformed` standing for bytes no
parser accepts. -/
inductive Payload
  | ping
  | pong (ping_seqno : Nat)
  | shutdown (reason : String)
  | msgbus (text : String) (level : Nat)
  | httpRegisterUri (uri method : String)
  | httpResponse (r : HttpResponseMsg)
  | httpAuthReq
  | httpRequest (req_id : Nat) (uri method : String) (vars : List (String × String))
  | httpAuth (token : String)
  | eventbusRegister (events : List String)
  | eventbusPublish (etype ejson : String)
  | event (json : String)
  | malformed (raw : String)
  deriving Repr, DecidableEq

/-- The command envelope (`KismetExternal::Command`): a string command tag, a
32-bit `seqno` (0 when unset, as for a freshly constructed protobuf message),
and the content sub-message. -/
structure Command where
  command : String
  seqno : Nat
  content : Payload
  deriving Repr, DecidableEq

/-- A `stat()` result for one path: directory flag, owner/world execute bits,
and owner/group ids (`st_mode & S_IXUSR`, `st_mode & S_IXOTH`, `st_uid`,
`st_gid`). -/
structure FileStat where
  isDir : Bool
  ownerExec : Bool
  worldExec : Bool
  uid : Nat
  gid : Nat
  deriving Repr, DecidableEq

/-- Signal numbers used by the kill paths. -/
def SIGTERM : Nat := 15

def SIGKILL : Nat := 9

/-- The state of one `kis_external_interface` endpoint, together with the
observable effects it has had on its collaborators:

* `bus_active` — listener ids currently registered on the host event bus
  by this endpoint; `eventbus_callback_map` is the endpoint's own
  event-name → listener-id map.
* `registry` — child pids currently registered with the IPC registry.
* `child_signal` — the most recent signal delivered to the child, if any.
* `sent` — the commands serialized and handed to the active transport, in
  order (frame header construction — signature, length, Adler-32 — is a
  pure function of the serialized command and is not re-modelled here).
* `msgs` / `errors` — the `_MSG*` log and the arguments passed to the
  `handle_error` hook.
* `ipc_in_open` / `ipc_out_open` / `tcp_open` / `write_cb` — which
  transport handles are live; `read_loop_started` — whether a read loop
  was started on the current transport. -/
structure Endpoint where
  stopped : Bool
  cancelled : Bool
  seqno : Nat
  last_pong : Nat
  ping_timer_active : Bool
  external_binary : String
  eventbus_callback_map : List (String × Nat)
  bus_active : List Nat
  bus_next_id : Nat
  http_sessions : List (Nat × HttpSession)
  http_session_id : Nat
  routes : List (String × String)
  published : List (String × String)
  ipc_pid : Int
  registry : List Int
  child_signal : Option Nat
  ipc_in_open : Bool
  ipc_out_open : Bool
  tcp_open : Bool
  write_cb : Bool
  closure_cb : Bool
  in_buf : List Nat
  read_loop_started : Bool
  sent : List Command
  msgs : List String
  errors : List String
  deriving Repr, DecidableEq

/-- The constructor state of `kis_external_interface`: `stopped = true`,
`cancelled = false`, `seqno = 0`, `last_pong = 0`, no timer, empty maps,
`http_session_id = 0`, no transports. -/
def init_endpoint : Endpoint where
  stopped := true
  cancelled := false
  seqno := 0
  last_pong := 0
  ping_timer_active := false
  external_binary := ""
  eventbus_callback_map := []
  bus_active := []
  bus_next_id := 0
  http_sessions := []
  http_session_id := 0
  routes := []
  published := []
  ipc_pid := 0
  registry := []
  child_signal := none
  ipc_in_open := false
  ipc_out_open := false
  tcp_open := false
  write_cb := false
  closure_cb := false
  in_buf := []
  read_loop_started := false
  sent := []
  msgs := []
  errors := []

/-- Source `_MSG` and `_MSG_ERROR`: append a line to the message-bus log.  (The
severity flag is not tracked; only the text is observable here.) -/
def logMsg (m : String) (s : Endpoint) : Endpoint :=
  { s with msgs := s.msgs ++ [m] }

/-- Modelled from the spec: the user-overridable `handle_error(msg)` hook
(declared in `kis_external.h`, which is not part of the sources here).  Its
invocation is recorded as an observable effect. -/
def handle_error (msg : String) (s : Endpoint) : Endpoint :=
  { s with errors := s.errors ++ [msg] }

/-- Source `conditional_locker<int>::unlock()` with no argument (the locker lives in
a header outside these sources).  Modelled from the spec: the gate is a
single-shot condition; releasing it with no explicit value releases it with
the default value of the template type (`0` for `int`). -/
def unlock_default (h : HttpSession) : HttpSession :=
  { h with gate_released := true, gate_value := 0 }

/-- Source `conditional_locker<int>::unlock(v)` with an explicit value (used by the
closure callback with the failure sentinel `-1`). -/
def unlock_with (v : Int) (h : HttpSession) : HttpSession :=
  { h with gate_released := true, gate_value := v }

/-- The per-session teardown performed by `close_external`: cancel the
connection's response stream and release the gate
(`s.second->connection->response_stream().cancel(); s.second->locker->unlock()`). -/
def close_session (h : HttpSession) : HttpSession :=
  unlock_default { h with stream_cancelled := true }

/-- Close both IPC pipe descriptors.  In the source each close is guarded by
`is_open()`; the net effect is that both ends are closed. -/
def close_ipc_pipes (s : Endpoint) : Endpoint :=
  { s with ipc_in_open := false, ipc_out_open := false }

/-- Source `ipc_soft_kill`: set `stopped`/`cancelled`, close both pipes, and if a
child pid is recorded remove it from the IPC registry and deliver SIGTERM. -/
def ipc_soft_kill (s : Endpoint) : Endpoint :=
  let s := { s with stopped := true, cancelled := true }
  let s := close_ipc_pipes s
  if s.ipc_pid > 0 then
    { s with registry := s.registry.filter (fun p => !(p == s.ipc_pid)),
             child_signal := some SIGTERM }
  else s

/-- Source `ipc_hard_kill`: set `stopped`/`cancelled`, close both pipes, and if a
child pid is recorded remove it from the IPC registry and deliver SIGKILL. -/
def ipc_hard_kill (s : Endpoint) : Endpoint :=
  let s := { s with stopped := true, cancelled := true }
  let s := close_ipc_pipes s
  if s.ipc_pid > 0 then
    { s with registry := s.registry.filter (fun p => !(p == s.ipc_pid)),
             child_signal := some SIGKILL }
  else s

/-- Source `close_external`: set `stopped`/`cancelled`; remove every event-bus
listener recorded in `eventbus_callback_map` from the bus; cancel and
release every parked HTTP session; cancel the ping timer; `ipc_hard_kill()`;
close the TCP socket (guarded by `is_open()` in the source; the net effect
is a closed socket); clear `write_cb` and `closure_cb`. -/
def close_external (s : Endpoint) : Endpoint :=
  let s := { s with stopped := true, cancelled := true }
  let s := { s with bus_active :=
      s.bus_active.filter (fun i => !(s.eventbus_callback_map.any (fun p => p.2 == i))) }
  let s := { s with http_sessions :=
      s.http_sessions.map (fun (p : Nat × HttpSession) => (p.1, close_session p.2)) }
  let s := { s with ping_timer_active := false }
  let s := ipc_hard_kill s
  let s := { s with tcp_open := false }
  { s with write_cb := false, closure_cb := false }

/-- Source `trigger_error`: do nothing if already stopped; otherwise invoke the
`handle_error` hook and then `close_external`. -/
def trigger_error (msg : String) (s : Endpoint) : Endpoint :=
  if s.stopped then s
  else close_external (handle_error msg s)

/-- The seqno assignment step of `send_packet`:
`if (++seqno == 0) seqno = 1;` on a 32-bit unsigned counter. -/
def nextSeqno (n : Nat) : Nat :=
  if (n + 1) % 2 ^ 32 = 0 then 1 else (n + 1) % 2 ^ 32

/-- Whether some transport is available to `send_packet`: a delegated
`write_cb`, the open IPC out pipe, or the open TCP socket (checked in that
order by the source). -/
def transport_active (s : Endpoint) : Bool :=
  s.write_cb || s.ipc_out_open || s.tcp_open

/-- Source `send_packet`: under the endpoint mutex, assign the next sequence number
when the command carries `seqno = 0`; serialize and frame the command
(signature, length, Adler-32 checksum — a pure function of the serialized
bytes, recorded here as the command itself); hand the frame to the first
active transport of {`write_cb`, IPC pipe, TCP socket}; if none is active,
log, `trigger_error("no connections")` and return 0.  Returns the command's
seqno.  (Asynchronous write-completion errors are outside this state
function.) -/
def send_packet (c : Command) (s : Endpoint) : Nat × Endpoint :=
  let cs :=
    if c.seqno = 0 then
      let sq := nextSeqno s.seqno
      ({ c with seqno := sq }, { s with seqno := sq })
    else (c, s)
  let c := cs.1
  let s := cs.2
  if s.write_cb then
    (c.seqno, { s with sent := s.sent ++ [c] })
  else if s.ipc_out_open then
    (c.seqno, { s with sent := s.sent ++ [c] })
  else if s.tcp_open then
    (c.seqno, { s with sent := s.sent ++ [c] })
  else
    (0, trigger_error "no connections"
          (logMsg "Kismet external interface got an error writing packet, no connections" s))

/-- Iterate `send_packet` over a list of commands, collecting the returned
sequence numbers (models N successive `send_packet` calls). -/
def send_all (cs : List Command) (s : Endpoint) : List Nat × Endpoint :=
  match cs with
  | [] => ([], s)
  | c :: rest =>
      let r := send_packet c s
      let rs := send_all rest r.2
      (r.1 :: rs.1, rs.2)

/-- The seqno counter after `k` assignments starting from `a`. -/
def seq_iter (a : Nat) : Nat → Nat
  | 0 => a
  | k + 1 => nextSeqno (seq_iter a k)

/-- The commands as they are serialized by successive `send_packet` calls
starting with counter `a`: each command (assumed to carry `seqno = 0`) gets
the next assigned sequence number. -/
def assign_from (a : Nat) : List Command → List Command
  | [] => []
  | c :: rest => { c with seqno := nextSeqno a } :: assign_from (nextSeqno a) rest

/-- Source `send_ping`: a `PING` command with empty `Ping` content and unset seqno. -/
def send_ping (s : Endpoint) : Nat × Endpoint :=
  send_packet { command := "PING", seqno := 0, content := .ping } s

/-- Source `send_pong`: a `PONG` command whose `Pong` content carries the
`ping_seqno` of the PING being answered. -/
def send_pong (ping_seqno : Nat) (s : Endpoint) : Nat × Endpoint :=
  send_packet { command := "PONG", seqno := 0, content := .pong ping_seqno } s

/-- Source `send_shutdown`: a `SHUTDOWN` command carrying a reason. -/
def send_shutdown (reason : String) (s : Endpoint) : Nat × Endpoint :=
  send_packet { command := "SHUTDOWN", seqno := 0, content := .shutdown reason } s

/-- Source `send_http_request`: an `HTTPREQUEST` command carrying the proxied
request id, URI, method and variables. -/
def send_http_request (req_id : Nat) (uri method : String)
    (vars : List (String × String)) (s : Endpoint) : Nat × Endpoint :=
  send_packet { command := "HTTPREQUEST", seqno := 0,
                content := .httpRequest req_id uri method vars } s

/-- Source `send_http_auth`: an `HTTPAUTH` command carrying a token. -/
def send_http_auth (token : String) (s : Endpoint) : Nat × Endpoint :=
  send_packet { command := "HTTPAUTH", seqno := 0, content := .httpAuth token } s

/-- Source `proxy_event`: an `EVENT` command carrying the event serialized as JSON. -/
def proxy_event (json : String) (s : Endpoint) : Endpoint :=
  (send_packet { command := "EVENT", seqno := 0, content := .event json } s).2

/-! ## Sub-message parsers

Each `ParseFromString` call is modelled as succeeding exactly when the
payload is the sub-message that handler expects. -/

def parse_message : Payload → Option (String × Nat)
  | .msgbus t l => some (t, l)
  | _ => none

def parse_pong : Payload → Option Unit
  | .pong _ => some ()
  | _ => none

def parse_shutdown : Payload → Option String
  | .shutdown r => some r
  | _ => none

def parse_http_register : Payload → Option (String × String)
  | .httpRegisterUri u m => some (u, m)
  | _ => none

def parse_http_response : Payload → Option HttpResponseMsg
  | .httpResponse r => some r
  | _ => none

def parse_http_auth_request : Payload → Option Unit
  | .httpAuthReq => some ()
  | _ => none

def parse_eventbus_register : Payload → Option (List String)
  | .eventbusRegister evts => some evts
  | _ => none

def parse_eventbus_publish : Payload → Option (String × String)
  | .eventbusPublish t j => some (t, j)
  | _ => none

/-! ## Built-in command handlers -/

/-- Source `handle_msg_proxy`: forward the text to the message bus. -/
def handle_msg_proxy (msg : String) (_msgtype : Nat) (s : Endpoint) : Endpoint :=
  logMsg msg s

/-- Source `handle_packet_message`: parse a `MsgbusMessage`; on failure log and
`trigger_error("Invalid MESSAGE")`; on success forward via `handle_msg_proxy`. -/
def handle_packet_message (_in_seqno : Nat) (in_content : Payload) (s : Endpoint) : Endpoint :=
  match parse_message in_content with
  | none =>
      trigger_error "Invalid MESSAGE"
        (logMsg "Kismet external interface got an unparsable MESSAGE" s)
  | some (t, l) => handle_msg_proxy t l s

/-- Source `handle_packet_ping`: reply with a PONG echoing the envelope seqno.
(The `Ping` content is never parsed by the source.) -/
def handle_packet_ping (in_seqno : Nat) (_in_content : Payload) (s : Endpoint) : Endpoint :=
  (send_pong in_seqno s).2

/-- Source `handle_packet_pong`: parse a `Pong`; on failure log and
`trigger_error("Invalid PONG")`; on success update `last_pong` to the
current time. -/
def handle_packet_pong (now : Nat) (_in_seqno : Nat) (in_content : Payload)
    (s : Endpoint) : Endpoint :=
  match parse_pong in_content with
  | none =>
      trigger_error "Invalid PONG"
        (logMsg "Kismet external interface got an unparsable PONG packet" s)
  | some _ => { s with last_pong := now }

/-- Source `handle_packet_shutdown`: parse an `ExternalShutdown`; on failure log and
`trigger_error("invalid SHUTDOWN")` (lowercase `i` in the source); on
success log the reason and trigger the remote-shutdown error. -/
def handle_packet_shutdown (_in_seqno : Nat) (in_content : Payload) (s : Endpoint) : Endpoint :=
  match parse_shutdown in_content with
  | none =>
      trigger_error "invalid SHUTDOWN"
        (logMsg "Kismet external interface got an unparsable SHUTDOWN" s)
  | some reason =>
      trigger_error ("Remote connection requesting shutdown: " ++ reason)
        (logMsg ("Kismet external interface shutting down: " ++ reason) s)

/-- Source `handle_packet_http_register`: parse a `HttpRegisterUri`; on failure log
and `trigger_error("Invalid HTTPREGISTERURI")`; on success register a
host-server route for (uri, method).  (The parked proxy handler installed on
that route runs on host-server worker threads and is outside this state
function.) -/
def handle_packet_http_register (_in_seqno : Nat) (in_content : Payload)
    (s : Endpoint) : Endpoint :=
  match parse_http_register in_content with
  | none =>
      trigger_error "Invalid HTTPREGISTERURI"
        (logMsg "Kismet external interface got an unparsable HTTPREGISTERURI" s)
  | some (u, m) => { s with routes := s.routes ++ [(u, m)] }

/-- Look up a parked HTTP session by request id
(`http_proxy_session_map.find(req_id)`). -/
def lookup_session (m : List (Nat × HttpSession)) (k : Nat) : Option HttpSession :=
  match m.find? (fun p => p.1 == k) with
  | some p => some p.2
  | none => none

/-- Replace the session stored under key `k`. -/
def update_session (m : List (Nat × HttpSession)) (k : Nat) (h : HttpSession) :
    List (Nat × HttpSession) :=
  m.map (fun (p : Nat × HttpSession) => if p.1 == k then (k, h) else p)

/-- The effect of one `HttpResponse` on its session, in source order:
append every `(header, content)` pair; set the status if a `resultcode` is
present; push the `content` bytes to the response stream if present and
non-empty; if `close_response` is set and true, complete the response stream
and release the gate. -/
def apply_http_response (resp : HttpResponseMsg) (h : HttpSession) : HttpSession :=
  let h := { h with conn_events := h.conn_events ++
      resp.header_content.map (fun (hc : String × String) => ConnEvent.header hc.1 hc.2) }
  let h :=
    match resp.resultcode with
    | some rc => { h with conn_events := h.conn_events ++ [ConnEvent.status rc] }
    | none => h
  let h :=
    match resp.content with
    | some d =>
        if 0 < d.length then { h with conn_events := h.conn_events ++ [ConnEvent.body d] }
        else h
    | none => h
  match resp.close_response with
  | some true => unlock_default { h with conn_events := h.conn_events ++ [ConnEvent.complete] }
  | _ => h

/-- Source `handle_packet_http_response`: parse a `HttpResponse`; on failure log and
`trigger_error("Invalid  HTTPRESPONSE")` (two spaces in the source); if the
request id has no parked session, log and
`trigger_error("Invalid HTTPRESPONSE session")`; otherwise apply the
response to the session.  (The host connection's `append_header` and
`set_status` are modelled as non-throwing; their failure branches re-route
to `trigger_error` in the source.) -/
def handle_packet_http_response (_in_seqno : Nat) (in_content : Payload)
    (s : Endpoint) : Endpoint :=
  match parse_http_response in_content with
  | none =>
      trigger_error "Invalid  HTTPRESPONSE"
        (logMsg "Kismet external interface got an unparsable HTTPRESPONSE" s)
  | some resp =>
      match lookup_session s.http_sessions resp.req_id with
      | none =>
          trigger_error "Invalid HTTPRESPONSE session"
            (logMsg "Kismet external interface got a HTTPRESPONSE for an unknown session" s)
      | some session =>
          { s with http_sessions :=
              update_session s.http_sessions resp.req_id (apply_http_response resp session) }

/-- Source `handle_packet_http_auth_request`: parse a `HttpAuthTokenRequest`; on
failure log and `trigger_error("Invalid HTTPAUTHREQ")`; on success mint a
logon-role token via the host HTTP server (supplied here as `token`) and
reply with `HTTPAUTH(token)`. -/
def handle_packet_http_auth_request (token : String) (_in_seqno : Nat)
    (in_content : Payload) (s : Endpoint) : Endpoint :=
  match parse_http_auth_request in_content with
  | none =>
      trigger_error "Invalid HTTPAUTHREQ"
        (logMsg "Kismet external interface got an unparsable HTTPAUTHREQ" s)
  | some _ => (send_http_auth token s).2

/-- Source `std::map` assignment `m[k] = v`: replace the value under `k`, or insert. -/
def map_set (m : List (String × Nat)) (k : String) (v : Nat) : List (String × Nat) :=
  if m.any (fun p => p.1 == k) then
    m.map (fun (p : String × Nat) => if p.1 == k then (k, v) else p)
  else m ++ [(k, v)]

/-- One iteration of the `EVENTBUSREGISTER` loop: if a listener for this
event name exists, remove it from the bus; register a fresh listener (its
callback proxies events outbound) and store its id in the map. -/
def eventbus_register_one (s : Endpoint) (name : String) : Endpoint :=
  let s :=
    match s.eventbus_callback_map.find? (fun p => p.1 == name) with
    | some p => { s with bus_active := s.bus_active.filter (fun i => !(i == p.2)) }
    | none => s
  let eid := s.bus_next_id
  { s with bus_active := s.bus_active ++ [eid],
           bus_next_id := eid + 1,
           eventbus_callback_map := map_set s.eventbus_callback_map name eid }

/-- Source `handle_packet_eventbus_register`: parse an `EventbusRegisterListener`;
on failure log and `trigger_error("Invalid EVENTBUSREGISTER")`; on success
process each named event. -/
def handle_packet_eventbus_register (_in_seqno : Nat) (in_content : Payload)
    (s : Endpoint) : Endpoint :=
  match parse_eventbus_register in_content with
  | none =>
      trigger_error "Invalid EVENTBUSREGISTER"
        (logMsg "Kismet external interface got an unparseable EVENTBUSREGISTER" s)
  | some evts => evts.foldl eventbus_register_one s

/-- Source `handle_packet_eventbus_publish`: parse an `EventbusPublishEvent`; on
failure log and `trigger_error("Invalid EVENTBUSPUBLISH")`; on success
construct a host event of the given type carrying the JSON content and
publish it. -/
def handle_packet_eventbus_publish (_in_seqno : Nat) (in_content : Payload)
    (s : Endpoint) : Endpoint :=
  match parse_eventbus_publish in_content with
  | none =>
      trigger_error "Invalid EVENTBUSPUBLISH"
        (logMsg "Kismet external interface got unparseable EVENTBUSPUBLISH" s)
  | some (t, j) => { s with published := s.published ++ [(t, j)] }

/-- Source `dispatch_rx_packet`: route a decoded envelope to the built-in handler
for its command tag; unknown tags are not handled (returns `false`, state
unchanged). `now` and `token` stand for the collaborators consulted by the
PONG and HTTPAUTHREQ handlers. -/
def dispatch_rx_packet (now : Nat) (token : String) (c : Command)
    (s : Endpoint) : Bool × Endpoint :=
  if c.command = "MESSAGE" then (true, handle_packet_message c.seqno c.content s)
  else if c.command = "PING" then (true, handle_packet_ping c.seqno c.content s)
  else if c.command = "PONG" then (true, handle_packet_pong now c.seqno c.content s)
  else if c.command = "SHUTDOWN" then (true, handle_packet_shutdown c.seqno c.content s)
  else if c.command = "HTTPREGISTERURI" then
    (true, handle_packet_http_register c.seqno c.content s)
  else if c.command = "HTTPRESPONSE" then
    (true, handle_packet_http_response c.seqno c.content s)
  else if c.command = "HTTPAUTHREQ" then
    (true, handle_packet_http_auth_request token c.seqno c.content s)
  else if c.command = "EVENTBUSREGISTER" then
    (true, handle_packet_eventbus_register c.seqno c.content s)
  else if c.command = "EVENTBUSPUBLISH" then
    (true, handle_packet_eventbus_publish c.seqno c.content s)
  else (false, s)

/-! ## Transport attach and child launch -/

/-- Source `attach_tcp_socket`: under the endpoint mutex, set `stopped = true` and
drain the ingress buffer; refuse (returning `false`) when an IPC child is
already recorded; otherwise take ownership of the socket, clear
`stopped`/`cancelled` and start the TCP read loop. -/
def attach_tcp_socket (s : Endpoint) : Bool × Endpoint :=
  let s := { s with stopped := true, in_buf := [] }
  if s.ipc_pid > 0 then
    (false, logMsg "Tried to attach a TCP socket to an external endpoint that already has an IPC instance running." s)
  else
    let s := { s with tcp_open := true }
    let s := { s with stopped := false, cancelled := false }
    (true, { s with read_loop_started := true })

/-- The environment consulted by `check_ipc` and `run_ipc`: the configured
`helper_binary_path` list, the config store's `expand_log_path`, the
filesystem's `stat`, the process credentials consulted by the permission
probe, and the outcomes of the `pipe`/`fork` system calls. -/
structure IpcEnv where
  binPaths : List String
  expand : String → String
  fs : String → Option FileStat
  uid : Nat
  gid : Nat
  groups : List Nat
  pipe1_ok : Bool
  pipe2_ok : Bool
  fork_result : Option Int

/-- The effective binary search path: the configured list, or the single
token `"%B"` when the configuration is empty. -/
def effective_bin_paths (l : List String) : List String :=
  if l = [] then ["%B"] else l

/-- The search loop shared (textually duplicated) by `check_ipc` and
`run_ipc`: for each path, expand it and append `"/" + binary`; if `stat`
succeeds, skip directories; accept the first entry whose owner-execute bit
is set.  Returns the accepted path with its stat. -/
def find_helper (fs : String → Option FileStat) (expand : String → String)
    (binary : String) : List String → Option (String × FileStat)
  | [] => none
  | rp :: rest =>
      let fp := expand rp ++ "/" ++ binary
      match fs fp with
      | none => find_helper fs expand binary rest
      | some st =>
          if st.isDir then find_helper fs expand binary rest
          else if st.ownerExec then some (fp, st)
          else find_helper fs expand binary rest

/-- Source `check_ipc`: whether some effective search path holds the helper binary
as an existing non-directory entry with the owner-execute bit. -/
def check_ipc (env : IpcEnv) (binary : String) : Bool :=
  (find_helper env.fs env.expand binary (effective_bin_paths env.binPaths)).isSome

/-- The permission probe of `run_ipc`: pass when the binary is
world-executable, or the current user owns it, or is root, or shares its
group directly or through a supplementary group. -/
def ipc_perm_ok (env : IpcEnv) (st : FileStat) : Bool :=
  if st.worldExec then true
  else if env.uid == st.uid || env.uid == 0 then true
  else if env.gid == st.gid then true
  else env.groups.contains st.gid

/-- Source `run_ipc`: set `stopped = true` and drain the ingress buffer at entry;
fail on an empty binary name, on binary resolution failure, on the
permission probe, on either `pipe` call, and on `fork` — each failure logs
and returns `false` with `stopped` still set.  On success (the parent branch
of the fork) wrap the pipe ends, record the child pid with the IPC registry,
clear `stopped`/`cancelled` and start the IPC read loop.  (The child branch
of the fork runs `execvp` in the other process and is not part of this
state.) -/
def run_ipc (env : IpcEnv) (s : Endpoint) : Bool × Endpoint :=
  let s := { s with stopped := true, in_buf := [] }
  if s.external_binary = "" then
    (false, logMsg "Kismet external interface did not have an IPC binary to launch" s)
  else
    let s :=
      if env.binPaths = [] then
        logMsg "No helper_binary_path found in kismet.conf, make sure your config files are up to date; using the default binary path where Kismet is installed." s
      else s
    match find_helper env.fs env.expand s.external_binary
        (effective_bin_paths env.binPaths) with
    | none =>
        (false, logMsg ("Kismet external interface can not find IPC binary for launch: "
          ++ s.external_binary) s)
    | some (helper_path, st) =>
        if !(ipc_perm_ok env st) then
          (false, logMsg ("IPC cannot run binary '" ++ helper_path
            ++ "', Kismet was installed setgid and you are not in that group.") s)
        else if !env.pipe1_ok then
          (false, logMsg "IPC could not create pipe" s)
        else if !env.pipe2_ok then
          (false, logMsg "IPC could not create pipe" s)
        else
          match env.fork_result with
          | none => (false, logMsg "IPC could not fork()" s)
          | some pid =>
              let s := { s with ipc_out_open := true, ipc_in_open := true,
                                ipc_pid := pid, registry := s.registry ++ [pid] }
              let s := { s with stopped := false, cancelled := false }
              (true, { s with read_loop_started := true })

/-! ## Sample states used by witnesses -/

/-- A parked session freshly created by the proxy handler. -/
def sample_session : HttpSession where
  conn_events := []
  stream_cancelled := false
  gate_released := false
  gate_value := 0

/-- A running IPC-backed endpoint with one event-bus listener and one parked
HTTP session. -/
def sample_running : Endpoint :=
  { init_endpoint with
      stopped := false
      ipc_in_open := true
      ipc_out_open := true
      ipc_pid := 5
      registry := [5]
      eventbus_callback_map := [("KISMET", 3)]
      bus_active := [3, 9]
      bus_next_id := 10
      http_sessions := [(0, sample_session)]
      http_session_id := 1
      ping_timer_active := true
      closure_cb := true }

/-- A PING command with unset seqno, as built by `send_ping`. -/
def ping_command : Command where
  command := "PING"
  seqno := 0
  content := .ping

/-- Sample: `sample_running` with a non-empty ingress buffer. -/
def sample_buffered : Endpoint :=
  { sample_running with in_buf := [7, 7] }

/-- A concrete `HttpResponse` carrying one header, a status, a body chunk
and the terminal `close_response`. -/
def respW : HttpResponseMsg where
  req_id := 0
  header_content := [("X-T", "v")]
  resultcode := some 200
  content := some "hi"
  close_response := some true

/-- An endpoint configured to launch a helper binary. -/
def sample_helper_endpoint : Endpoint :=
  { init_endpoint with external_binary := "helper" }

/-- A stat of an ordinary executable file. -/
def sample_stat : FileStat where
  isDir := false
  ownerExec := true
  worldExec := true
  uid := 0
  gid := 0

/-- An environment in which `/bin/helper` exists and is executable, pipes
and fork succeed. -/
def sample_env_ok : IpcEnv where
  binPaths := ["/bin"]
  expand := fun p => p
  fs := fun fp => if fp == "/bin/helper" then some sample_stat else none
  uid := 1
  gid := 1
  groups := []
  pipe1_ok := true
  pipe2_ok := true
  fork_result := some 5

/-- An environment in which no helper binary exists anywhere. -/
def sample_env_missing : IpcEnv :=
  { sample_env_ok with fs := fun _ => none }

/-! # Theorems -/

theorem filter_idem {α : Type} (p : α → Bool) (l : List α) :
    (l.filter p).filter p = l.filter p := by
  induction l with
  | nil => rfl
  | cons a t ih =>
      by_cases h : p a <;> simp [List.filter_cons, h, ih]

/-- C10: both kill paths force `stopped` and `cancelled` and close both pipe
descriptors, unconditionally; when no child pid is recorded no signal is
delivered and the IPC registry is untouched; when one is recorded the pid is
deregistered and SIGTERM (soft) / SIGKILL (hard) delivered. -/
theorem ipc_kill_stops_endpoint (s : Endpoint) :
    ((ipc_soft_kill s).stopped = true ∧ (ipc_soft_kill s).cancelled = true ∧
     (ipc_soft_kill s).ipc_in_open = false ∧ (ipc_soft_kill s).ipc_out_open = false ∧
     (0 < s.ipc_pid → (ipc_soft_kill s).child_signal = some SIGTERM ∧
        s.ipc_pid ∉ (ipc_soft_kill s).registry) ∧
     (¬ 0 < s.ipc_pid → (ipc_soft_kill s).child_signal = s.child_signal ∧
        (ipc_soft_kill s).registry = s.registry)) ∧
    ((ipc_hard_kill s).stopped = true ∧ (ipc_hard_kill s).cancelled = true ∧
     (ipc_hard_kill s).ipc_in_open = false ∧ (ipc_hard_kill s).ipc_out_open = false ∧
     (0 < s.ipc_pid → (ipc_hard_kill s).child_signal = some SIGKILL ∧
        s.ipc_pid ∉ (ipc_hard_kill s).registry) ∧
     (¬ 0 < s.ipc_pid → (ipc_hard_kill s).child_signal = s.child_signal ∧
        (ipc_hard_kill s).registry = s.registry)) := by
  unfold ipc_soft_kill ipc_hard_kill close_ipc_pipes
  by_cases h : (0 : Int) < s.ipc_pid <;>
    simp [h, List.mem_filter]

/-- Closed witness for `ipc_kill_stops_endpoint` at a running endpoint with
child pid 5. -/
theorem ipc_kill_stops_endpoint_witness :
    (ipc_soft_kill sample_running).stopped = true ∧
    (ipc_hard_kill sample_running).child_signal = some SIGKILL ∧
    (5 : Int) ∉ (ipc_hard_kill sample_running).registry := by
  refine ⟨(ipc_kill_stops_endpoint sample_running).1.1, ?_, ?_⟩
  · exact ((ipc_kill_stops_endpoint sample_running).2.2.2.2.2.1 (by decide)).1
  · exact ((ipc_kill_stops_endpoint sample_running).2.2.2.2.2.1 (by decide)).2

/-- C6: `trigger_error` is idempotent on `stopped`: with `stopped` already
set it does nothing at all; otherwise it invokes the `handle_error(msg)`
hook and then `close_external`, after which `stopped` holds. -/
theorem trigger_error_idempotent_on_stopped (s : Endpoint) (msg : String) :
    (s.stopped = true → trigger_error msg s = s) ∧
    (s.stopped = false →
      trigger_error msg s = close_external (handle_error msg s) ∧
      (trigger_error msg s).errors = s.errors ++ [msg] ∧
      (trigger_error msg s).stopped = true) := by
  constructor
  · intro h
    simp [trigger_error, h]
  · intro h
    refine ⟨by simp [trigger_error, h], ?_, ?_⟩ <;>
      simp [trigger_error, h, close_external, ipc_hard_kill, close_ipc_pipes,
        handle_error] <;>
      by_cases hp : (0 : Int) < s.ipc_pid <;> simp [hp]

/-- Closed witness for `trigger_error_idempotent_on_stopped`: a stopped
endpoint is untouched; a running one ends up stopped with the error
recorded. -/
theorem trigger_error_idempotent_on_stopped_witness :
    trigger_error "e" init_endpoint = init_endpoint ∧
    (trigger_error "e" sample_running).errors = ["e"] ∧
    (trigger_error "e" sample_running).stopped = true := by
  refine ⟨(trigger_error_idempotent_on_stopped init_endpoint "e").1 (by decide), ?_, ?_⟩
  · exact ((trigger_error_idempotent_on_stopped sample_running "e").2 (by decide)).2.1
  · exact ((trigger_error_idempotent_on_stopped sample_running "e").2 (by decide)).2.2

/-- C2: after `close_external`, `stopped` and `cancelled` hold, every
listener recorded in the endpoint's event-bus map is gone from the bus,
every parked HTTP session has its response stream cancelled and its gate
released, the ping timer is cancelled, both IPC pipes are closed (with the
child, when recorded, deregistered and sent SIGKILL, and no signal delivered
otherwise), the TCP socket is closed, `write_cb` and `closure_cb` are
cleared, and a second `close_external` is a no-op (safe to call multiple
times). -/
theorem close_external_teardown (s : Endpoint) :
    (close_external s).stopped = true ∧
    (close_external s).cancelled = true ∧
    (∀ p ∈ s.eventbus_callback_map, p.2 ∉ (close_external s).bus_active) ∧
    (∀ q ∈ (close_external s).http_sessions,
        q.2.stream_cancelled = true ∧ q.2.gate_released = true) ∧
    (close_external s).ping_timer_active = false ∧
    (close_external s).ipc_in_open = false ∧
    (close_external s).ipc_out_open = false ∧
    (0 < s.ipc_pid → (close_external s).child_signal = some SIGKILL ∧
        s.ipc_pid ∉ (close_external s).registry) ∧
    (¬ 0 < s.ipc_pid → (close_external s).child_signal = s.child_signal ∧
        (close_external s).registry = s.registry) ∧
    (close_external s).tcp_open = false ∧
    (close_external s).write_cb = false ∧
    (close_external s).closure_cb = false ∧
    close_external (close_external s) = close_external s := by
  unfold close_external ipc_hard_kill close_ipc_pipes
  by_cases hp : (0 : Int) < s.ipc_pid <;>
    simp [hp, List.mem_filter, close_session, unlock_default, filter_idem,
      List.map_map, Function.comp] <;>
  · refine ⟨fun a b hab _ => ⟨a, hab⟩, ?_⟩
    rintro a b x x1 hmem rfl rfl
    simp

/-- Closed witness for `close_external_teardown` at a running endpoint with
a listener, a parked session and child pid 5. -/
theorem close_external_teardown_witness :
    (∀ p ∈ sample_running.eventbus_callback_map,
        p.2 ∉ (close_external sample_running).bus_active) ∧
    (close_external sample_running).child_signal = some SIGKILL ∧
    close_external (close_external sample_running) = close_external sample_running := by
  refine ⟨(close_external_teardown sample_running).2.2.1, ?_,
    (close_external_teardown sample_running).2.2.2.2.2.2.2.2.2.2.2.2⟩
  exact ((close_external_teardown sample_running).2.2.2.2.2.2.2.1 (by decide)).1

/-- C3 (counterexample): at a running IPC endpoint with a non-empty ingress
buffer, `attach_tcp_socket` does fail, but it does not leave the state
unchanged — it sets `stopped` and drains the ingress buffer before the pid
check. -/
theorem attach_tcp_socket_counterexample :
    (attach_tcp_socket sample_buffered).1 = false ∧
    sample_buffered.stopped = false ∧
    (attach_tcp_socket sample_buffered).2.stopped = true ∧
    sample_buffered.in_buf = [7, 7] ∧
    (attach_tcp_socket sample_buffered).2.in_buf = [] := by
  decide

/-- C3 (amended): with a recorded child pid, `attach_tcp_socket` fails and
leaves the state unchanged except that `stopped` is set, the ingress buffer
is drained, and the refusal is logged; in particular `cancelled` and every
transport handle are untouched. -/
theorem attach_tcp_socket_refuses_when_ipc (s : Endpoint) (h : 0 < s.ipc_pid) :
    (attach_tcp_socket s).1 = false ∧
    (attach_tcp_socket s).2 =
      { s with stopped := true, in_buf := [],
               msgs := s.msgs ++ ["Tried to attach a TCP socket to an external endpoint that already has an IPC instance running."] } := by
  simp [attach_tcp_socket, logMsg, h]

/-- Closed witness for `attach_tcp_socket_refuses_when_ipc` at the buffered
running endpoint. -/
theorem attach_tcp_socket_refuses_when_ipc_witness :
    (attach_tcp_socket sample_buffered).1 = false ∧
    (attach_tcp_socket sample_buffered).2 =
      { sample_buffered with
          stopped := true
          in_buf := []
          msgs := ["Tried to attach a TCP socket to an external endpoint that already has an IPC instance running."] } := by
  have h := attach_tcp_socket_refuses_when_ipc sample_buffered (by decide)
  exact ⟨h.1, h.2.trans (by decide)⟩

/-- C9: whenever `run_ipc` fails it leaves the endpoint stopped (set at
entry), does not touch `cancelled`, and starts no read loop; `stopped` and
`cancelled` are cleared exactly on the success path, where the read loop is
started. -/
theorem run_ipc_stopped_unless_success (env : IpcEnv) (s : Endpoint) :
    ((run_ipc env s).1 = false →
      (run_ipc env s).2.stopped = true ∧
      (run_ipc env s).2.cancelled = s.cancelled ∧
      (run_ipc env s).2.read_loop_started = s.read_loop_started) ∧
    ((run_ipc env s).1 = true →
      (run_ipc env s).2.stopped = false ∧
      (run_ipc env s).2.cancelled = false ∧
      (run_ipc env s).2.read_loop_started = true) := by
  unfold run_ipc
  by_cases hb : s.external_binary = ""
  · simp [hb, logMsg]
  rcases hf : find_helper env.fs env.expand s.external_binary
      (effective_bin_paths env.binPaths) with _ | ⟨fp, st⟩
  · by_cases hp : env.binPaths = []
    · rw [hp] at hf
      simp [hb, hp, hf, logMsg]
    · simp [hb, hp, hf, logMsg]
  · by_cases hp : env.binPaths = []
    · rw [hp] at hf
      by_cases hperm : ipc_perm_ok env st <;>
        by_cases h1 : env.pipe1_ok <;>
        by_cases h2 : env.pipe2_ok <;>
        rcases hfork : env.fork_result with _ | pid <;>
        simp [hb, hp, hf, hperm, h1, h2, hfork, logMsg]
    · by_cases hperm : ipc_perm_ok env st <;>
        by_cases h1 : env.pipe1_ok <;>
        by_cases h2 : env.pipe2_ok <;>
        rcases hfork : env.fork_result with _ | pid <;>
        simp [hb, hp, hf, hperm, h1, h2, hfork, logMsg]

/-- Closed witness for `run_ipc_stopped_unless_success`: launching a missing
binary fails and stays stopped; a successful launch clears the flags and
starts the read loop. -/
theorem run_ipc_stopped_unless_success_witness :
    (run_ipc sample_env_missing sample_helper_endpoint).2.stopped = true ∧
    (run_ipc sample_env_ok sample_helper_endpoint).2.stopped = false ∧
    (run_ipc sample_env_ok sample_helper_endpoint).2.read_loop_started = true := by
  refine ⟨((run_ipc_stopped_unless_success sample_env_missing sample_helper_endpoint).1
      (by decide)).1, ?_, ?_⟩
  · exact ((run_ipc_stopped_unless_success sample_env_ok sample_helper_endpoint).2
      (by decide)).1
  · exact ((run_ipc_stopped_unless_success sample_env_ok sample_helper_endpoint).2
      (by decide)).2.2

theorem find_helper_isSome_iff (fs : String → Option FileStat) (expand : String → String)
    (binary : String) (l : List String) :
    (find_helper fs expand binary l).isSome = true ↔
    ∃ rp ∈ l, ∃ st, fs (expand rp ++ "/" ++ binary) = some st ∧
      st.isDir = false ∧ st.ownerExec = true := by
  induction l with
  | nil => simp [find_helper]
  | cons a t ih =>
      rcases h : fs (expand a ++ "/" ++ binary) with _ | st
      · simp [find_helper, h, ih, List.exists_mem_cons_iff]
      · by_cases hd : st.isDir
        · simp [find_helper, h, hd, ih, List.exists_mem_cons_iff]
        · by_cases hx : st.ownerExec
          · simp [find_helper, h, hd, hx, List.exists_mem_cons_iff]
          · simp [find_helper, h, hd, hx, ih, List.exists_mem_cons_iff]

/-- C8: `check_ipc` succeeds exactly when some effective search path (the
configured list, or the single token `"%B"` when it is empty), expanded and
joined with `"/" + binary`, names an existing non-directory entry whose
owner-execute bit is set; directories and non-executable entries are
skipped, and with no qualifying path it fails. -/
theorem check_ipc_iff (env : IpcEnv) (binary : String) :
    check_ipc env binary = true ↔
    ∃ rp ∈ effective_bin_paths env.binPaths, ∃ st,
      env.fs (env.expand rp ++ "/" ++ binary) = some st ∧
      st.isDir = false ∧ st.ownerExec = true := by
  unfold check_ipc
  exact find_helper_isSome_iff env.fs env.expand binary (effective_bin_paths env.binPaths)

/-- Closed witness for `check_ipc_iff`: an executable `/bin/helper` is
found. -/
theorem check_ipc_iff_witness :
    check_ipc sample_env_ok "helper" = true :=
  (check_ipc_iff sample_env_ok "helper").mpr
    ⟨"/bin", by decide, sample_stat, by decide, rfl, rfl⟩

theorem nextSeqno_ne_zero (n : Nat) : nextSeqno n ≠ 0 := by
  unfold nextSeqno
  split
  · exact one_ne_zero
  · assumption

/-- On a state with an active transport, `send_packet` of a command with
unset seqno assigns the next sequence number, returns it, and appends the
command — with the assigned seqno — to the transport, leaving every other
field unchanged. -/
theorem send_packet_fresh (c : Command) (s : Endpoint) (hc : c.seqno = 0)
    (ht : transport_active s = true) :
    send_packet c s = (nextSeqno s.seqno,
      { s with seqno := nextSeqno s.seqno,
               sent := s.sent ++ [{ c with seqno := nextSeqno s.seqno }] }) := by
  unfold transport_active at ht
  unfold send_packet
  by_cases h1 : s.write_cb <;> by_cases h2 : s.ipc_out_open <;> by_cases h3 : s.tcp_open <;>
    simp_all

/-- Closed witness for `send_packet_fresh`: the first send on a fresh
running endpoint is assigned seqno 1. -/
theorem send_packet_fresh_witness :
    send_packet { command := "PING", seqno := 0, content := .ping } sample_running =
      (1, { sample_running with
              seqno := 1
              sent := [{ command := "PING", seqno := 1, content := .ping }] }) := by
  have h := send_packet_fresh { command := "PING", seqno := 0, content := .ping }
    sample_running rfl (by decide)
  exact h.trans (by decide)

/-- C5: an inbound PING with envelope seqno `s₀` produces exactly one
outbound frame: a PONG whose `ping_seqno` content field equals `s₀` and
whose own envelope seqno is the freshly assigned, necessarily non-zero,
sequence number. -/
theorem ping_replies_single_pong (s : Endpoint) (in_seqno : Nat) (p : Payload)
    (ht : transport_active s = true) :
    (handle_packet_ping in_seqno p s).sent =
      s.sent ++ [{ command := "PONG", seqno := nextSeqno s.seqno,
                   content := .pong in_seqno }] ∧
    nextSeqno s.seqno ≠ 0 := by
  unfold handle_packet_ping send_pong
  rw [send_packet_fresh _ _ rfl ht]
  exact ⟨rfl, nextSeqno_ne_zero s.seqno⟩

/-- Closed witness for `ping_replies_single_pong`: a PING with seqno 7 on a
running endpoint yields one PONG with `ping_seqno = 7` and seqno 1. -/
theorem ping_replies_single_pong_witness :
    (handle_packet_ping 7 .ping sample_running).sent =
      [{ command := "PONG", seqno := 1, content := .pong 7 }] ∧
    (1 : Nat) ≠ 0 := by
  have h := ping_replies_single_pong sample_running 7 .ping (by decide)
  refine ⟨h.1.trans (by decide), by decide⟩

theorem lookup_update_self (m : List (Nat × HttpSession)) (k : Nat) (h : HttpSession)
    (hk : lookup_session m k ≠ none) :
    lookup_session (update_session m k h) k = some h := by
  induction m with
  | nil => simp [lookup_session, List.find?] at hk
  | cons p t ih =>
      by_cases hp : p.1 == k
      · simp [lookup_session, update_session, List.find?, hp]
      · have hk' : lookup_session t k ≠ none := by
          simpa [lookup_session, List.find?, hp] using hk
        simpa [lookup_session, update_session, List.find?, hp] using ih hk'

/-- C4: for a well-formed `HTTPRESPONSE`: with no parked session for its
request id, the handler only logs and invokes `trigger_error`; with a parked
session, the session's connection receives — in this order, headers before
any body bytes — every `(header, content)` pair of the payload, then the
status exactly when a `resultcode` is present, then the content bytes
exactly when content is present and non-empty, then stream completion
exactly when `close_response` is true, in which case (and only then) the
session gate is released; no error is recorded in that case. -/
theorem http_response_session_semantics (s : Endpoint) (sq : Nat) (resp : HttpResponseMsg) :
    (lookup_session s.http_sessions resp.req_id = none →
      handle_packet_http_response sq (.httpResponse resp) s =
        trigger_error "Invalid HTTPRESPONSE session"
          (logMsg "Kismet external interface got a HTTPRESPONSE for an unknown session" s)) ∧
    (∀ sess, lookup_session s.http_sessions resp.req_id = some sess →
      ∃ sess',
        lookup_session (handle_packet_http_response sq (.httpResponse resp) s).http_sessions
            resp.req_id = some sess' ∧
        sess'.conn_events = sess.conn_events
          ++ resp.header_content.map (fun hc => ConnEvent.header hc.1 hc.2)
          ++ (match resp.resultcode with | some rc => [ConnEvent.status rc] | none => [])
          ++ (match resp.content with
              | some d => if 0 < d.length then [ConnEvent.body d] else []
              | none => [])
          ++ (match resp.close_response with | some true => [ConnEvent.complete] | _ => []) ∧
        sess'.gate_released = (sess.gate_released || (resp.close_response == some true)) ∧
        (handle_packet_http_response sq (.httpResponse resp) s).errors = s.errors) := by
  constructor
  · intro hnone
    simp [handle_packet_http_response, parse_http_response, hnone]
  · intro sess hsess
    refine ⟨apply_http_response resp sess, ?_, ?_, ?_, ?_⟩
    · simp only [handle_packet_http_response, parse_http_response, hsess]
      exact lookup_update_self s.http_sessions resp.req_id _ (by simp [hsess])
    · unfold apply_http_response
      rcases resp.resultcode with _ | rc <;>
        rcases hct : resp.content with _ | d <;>
        rcases hcl : resp.close_response with _ | b <;>
        first
          | (cases b <;>
              by_cases hd : 0 < d.length <;>
              simp [hct, hcl, hd, unlock_default, List.append_assoc])
          | (cases b <;> simp [hct, hcl, unlock_default, List.append_assoc])
          | (by_cases hd : 0 < d.length <;>
              simp [hct, hcl, hd, unlock_default, List.append_assoc])
          | simp [hct, hcl, unlock_default, List.append_assoc]
    · unfold apply_http_response
      rcases resp.resultcode with _ | rc <;>
        rcases hct : resp.content with _ | d <;>
        rcases hcl : resp.close_response with _ | b <;>
        first
          | (cases b <;>
              by_cases hd : 0 < d.length <;>
              simp [hct, hcl, hd, unlock_default])
          | (cases b <;> simp [hct, hcl, unlock_default])
          | (by_cases hd : 0 < d.length <;> simp [hct, hcl, hd, unlock_default])
          | simp [hct, hcl, unlock_default]
    · simp [handle_packet_http_response, parse_http_response, hsess]

/-- Closed witness for `http_response_session_semantics`: a terminal
response with one header, status 200 and body `"hi"` applied to the parked
session of `sample_running`. -/
theorem http_response_session_semantics_witness :
    ∃ sess',
      lookup_session (handle_packet_http_response 1 (.httpResponse respW)
          sample_running).http_sessions 0 = some sess' ∧
      sess'.conn_events = [ConnEvent.header "X-T" "v", ConnEvent.status 200,
        ConnEvent.body "hi", ConnEvent.complete] ∧
      sess'.gate_released = true := by
  obtain ⟨sess', h1, h2, h3, -⟩ :=
    (http_response_session_semantics sample_running 1 respW).2 sample_session (by decide)
  exact ⟨sess', h1, h2.trans (by decide), h3.trans (by decide)⟩

theorem seq_iter_one (a : Nat) : seq_iter a 1 = nextSeqno a := rfl

theorem seq_iter_shift (a k : Nat) :
    seq_iter (nextSeqno a) k = seq_iter a (k + 1) := by
  induction k with
  | zero => rfl
  | succ n ih =>
      show nextSeqno (seq_iter (nextSeqno a) n) = nextSeqno (seq_iter a (n + 1))
      rw [ih]

theorem seq_iter_id (k : Nat) (hk : k ≤ 2 ^ 32 - 1) : seq_iter 0 k = k := by
  induction k with
  | zero => rfl
  | succ n ih =>
      have hn : n ≤ 2 ^ 32 - 1 := Nat.le_of_succ_le hk
      have h1 : n + 1 < 2 ^ 32 := by omega
      show nextSeqno (seq_iter 0 n) = n + 1
      rw [ih hn]
      unfold nextSeqno
      rw [Nat.mod_eq_of_lt h1]
      simp

/-- Iterating `send_packet` over commands with unset seqnos on an endpoint
with an active transport returns the successive counter values and appends
the commands, each carrying its assigned seqno, to the transport. -/
theorem send_all_spec (cs : List Command) (s : Endpoint)
    (ht : transport_active s = true) (hc : ∀ c ∈ cs, c.seqno = 0) :
    send_all cs s =
      ((List.range cs.length).map (fun k => seq_iter s.seqno (k + 1)),
       { s with seqno := seq_iter s.seqno cs.length,
                sent := s.sent ++ assign_from s.seqno cs }) := by
  induction cs generalizing s with
  | nil => simp [send_all, seq_iter, assign_from]
  | cons c rest ih =>
      have hc0 : c.seqno = 0 := hc c (List.mem_cons_self c rest)
      have hrest : ∀ x ∈ rest, x.seqno = 0 := fun x hx => hc x (List.mem_cons_of_mem c hx)
      have ht' : transport_active
          { s with seqno := nextSeqno s.seqno,
                   sent := s.sent ++ [{ c with seqno := nextSeqno s.seqno }] } = true := ht
      simp only [send_all, send_packet_fresh c s hc0 ht, ih _ ht' hrest,
        Prod.mk.injEq]
      constructor
      · simp only [List.length_cons]
        rw [List.range_succ_eq_map]
        simp [List.map_map, Function.comp, seq_iter_shift, seq_iter_one]
      · simp [assign_from, seq_iter_shift]

theorem assign_from_eq_zip (cs : List Command) (a : Nat) :
    assign_from a cs = List.zipWith (fun c q => { c with seqno := q }) cs
      ((List.range cs.length).map (fun k => seq_iter a (k + 1))) := by
  induction cs generalizing a with
  | nil => rfl
  | cons c rest ih =>
      simp only [List.length_cons]
      rw [assign_from, List.range_succ_eq_map]
      simp only [List.map_cons, List.map_map, List.zipWith_cons_cons]
      rw [seq_iter_one, ih (nextSeqno a)]
      simp only [seq_iter_shift]
      congr 1

theorem range_map_seq_iter (n : Nat) (hn : n ≤ 2 ^ 32 - 1) :
    (List.range n).map (fun k => seq_iter 0 (k + 1)) = List.range' 1 n := by
  rw [List.range'_eq_map_range]
  apply List.map_congr_left
  intro a ha
  have h : a < n := List.mem_range.mp ha
  rw [seq_iter_id (a + 1) (by omega)]
  omega

/-- C1 (amended): on a fresh endpoint with an active transport, `N`
successful `send_packet` calls on commands carrying `seqno = 0` assign the
seqnos `1, 2, …, N`, which are pairwise distinct and non-zero, provided
`N ≤ 2^32 − 1`; each command is serialized carrying its assigned seqno; and
when the counter stands at `2^32 − 1`, the next assignment wraps to exactly
1. -/
theorem send_seqnos_distinct_bounded (cs : List Command) (s : Endpoint)
    (ht : transport_active s = true) (hs : s.seqno = 0)
    (hc : ∀ c ∈ cs, c.seqno = 0) (hN : cs.length ≤ 2 ^ 32 - 1) :
    (send_all cs s).1 = List.range' 1 cs.length ∧
    (send_all cs s).1.Nodup ∧
    0 ∉ (send_all cs s).1 ∧
    (send_all cs s).2.sent = s.sent ++
      List.zipWith (fun c q => { c with seqno := q }) cs (List.range' 1 cs.length) ∧
    (∀ (c : Command) (s' : Endpoint), c.seqno = 0 → transport_active s' = true →
      s'.seqno = 2 ^ 32 - 1 → (send_packet c s').1 = 1) := by
  have h := send_all_spec cs s ht hc
  rw [hs] at h
  have h1 : (send_all cs s).1 = List.range' 1 cs.length := by
    rw [h]
    exact range_map_seq_iter cs.length hN
  refine ⟨h1, ?_, ?_, ?_, ?_⟩
  · rw [h1]
    exact List.nodup_range' _ _
  · rw [h1]
    intro h0
    have := List.mem_range'_1.mp h0
    omega
  · rw [h]
    show s.sent ++ assign_from 0 cs = _
    rw [assign_from_eq_zip, range_map_seq_iter cs.length hN]
  · intro c s' hc0 ht' hs'
    rw [send_packet_fresh c s' hc0 ht']
    show nextSeqno s'.seqno = 1
    rw [hs']
    unfold nextSeqno
    norm_num

/-- Closed witness for `send_seqnos_distinct_bounded`: three PINGs on a
fresh running endpoint are assigned 1, 2, 3. -/
theorem send_seqnos_distinct_bounded_witness :
    (send_all [ping_command, ping_command, ping_command] sample_running).1 = [1, 2, 3] ∧
    (send_all [ping_command, ping_command, ping_command] sample_running).1.Nodup ∧
    0 ∉ (send_all [ping_command, ping_command, ping_command] sample_running).1 := by
  have h := send_seqnos_distinct_bounded [ping_command, ping_command, ping_command]
    sample_running (by decide) rfl (by decide) (by norm_num)
  exact ⟨h.1.trans (by decide), h.2.1, h.2.2.1⟩

/-- C1 (counterexample): the claim's distinctness fails for `N = 2^32` —
after `2^32` successful sends with `seqno = 0` on a fresh endpoint, the
first and the last call are both assigned seqno 1 (the 32-bit counter wraps
and, skipping 0, reassigns 1). -/
theorem send_seqnos_wrap_counterexample :
    ((send_all (List.replicate (2 ^ 32) ping_command) sample_running).1.get? 0 = some 1) ∧
    ((send_all (List.replicate (2 ^ 32) ping_command) sample_running).1.get?
        (2 ^ 32 - 1) = some 1) ∧
    (0 : Nat) ≠ 2 ^ 32 - 1 := by
  have hc : ∀ c ∈ List.replicate (2 ^ 32) ping_command, c.seqno = 0 := by
    intro c hcm
    rw [List.eq_of_mem_replicate hcm]
    rfl
  have h := send_all_spec (List.replicate (2 ^ 32) ping_command) sample_running (by decide) hc
  have hs0 : sample_running.seqno = 0 := rfl
  rw [hs0] at h
  have hfst : (send_all (List.replicate (2 ^ 32) ping_command) sample_running).1 =
      (List.range (2 ^ 32)).map (fun k => seq_iter 0 (k + 1)) := by
    rw [h]
    simp only [List.length_replicate]
  refine ⟨?_, ?_, by norm_num⟩
  · rw [hfst, List.get?_map, List.get?_range (by norm_num : 0 < 2 ^ 32)]
    rw [Option.map_some']
    rw [show seq_iter 0 (0 + 1) = 1 from seq_iter_id 1 (by norm_num)]
  · rw [hfst, List.get?_map, List.get?_range (by norm_num : 2 ^ 32 - 1 < 2 ^ 32)]
    rw [Option.map_some']
    have hstep : seq_iter 0 (2 ^ 32 - 1 + 1) = nextSeqno (seq_iter 0 (2 ^ 32 - 1)) := rfl
    rw [hstep, seq_iter_id (2 ^ 32 - 1) le_rfl]
    unfold nextSeqno
    norm_num

/-- C7 (counterexample): the SHUTDOWN handler does not use the error string
`"Invalid SHUTDOWN"` — on an unparsable SHUTDOWN it calls `trigger_error`
with the lowercase `"invalid SHUTDOWN"`. -/
theorem unparsable_error_string_counterexample :
    (handle_packet_shutdown 1 (.malformed "x")
        { init_endpoint with stopped := false }).errors = ["invalid SHUTDOWN"] ∧
    "invalid SHUTDOWN" ≠ "Invalid SHUTDOWN" := by
  decide

/-- C7 (amended): every built-in handler whose sub-message fails to parse
logs an unparsable/unparseable message and calls `trigger_error` with
`"Invalid <CMD>"` — except that SHUTDOWN passes `"invalid SHUTDOWN"`
(lowercase `i`) and HTTPRESPONSE passes `"Invalid  HTTPRESPONSE"` (two
spaces); the two EVENTBUS handlers spell their log message `"unparseable"`. -/
theorem unparsable_error_strings (s : Endpoint) (r : String) (sq : Nat) (tok : String)
    (hs : s.stopped = false) :
    ((handle_packet_message sq (.malformed r) s).errors = s.errors ++ ["Invalid MESSAGE"] ∧
     (handle_packet_message sq (.malformed r) s).msgs =
       s.msgs ++ ["Kismet external interface got an unparsable MESSAGE"]) ∧
    ((handle_packet_pong 0 sq (.malformed r) s).errors = s.errors ++ ["Invalid PONG"] ∧
     (handle_packet_pong 0 sq (.malformed r) s).msgs =
       s.msgs ++ ["Kismet external interface got an unparsable PONG packet"]) ∧
    ((handle_packet_shutdown sq (.malformed r) s).errors = s.errors ++ ["invalid SHUTDOWN"] ∧
     (handle_packet_shutdown sq (.malformed r) s).msgs =
       s.msgs ++ ["Kismet external interface got an unparsable SHUTDOWN"]) ∧
    ((handle_packet_http_register sq (.malformed r) s).errors =
       s.errors ++ ["Invalid HTTPREGISTERURI"] ∧
     (handle_packet_http_register sq (.malformed r) s).msgs =
       s.msgs ++ ["Kismet external interface got an unparsable HTTPREGISTERURI"]) ∧
    ((handle_packet_http_response sq (.malformed r) s).errors =
       s.errors ++ ["Invalid  HTTPRESPONSE"] ∧
     (handle_packet_http_response sq (.malformed r) s).msgs =
       s.msgs ++ ["Kismet external interface got an unparsable HTTPRESPONSE"]) ∧
    ((handle_packet_http_auth_request tok sq (.malformed r) s).errors =
       s.errors ++ ["Invalid HTTPAUTHREQ"] ∧
     (handle_packet_http_auth_request tok sq (.malformed r) s).msgs =
       s.msgs ++ ["Kismet external interface got an unparsable HTTPAUTHREQ"]) ∧
    ((handle_packet_eventbus_register sq (.malformed r) s).errors =
       s.errors ++ ["Invalid EVENTBUSREGISTER"] ∧
     (handle_packet_eventbus_register sq (.malformed r) s).msgs =
       s.msgs ++ ["Kismet external interface got an unparseable EVENTBUSREGISTER"]) ∧
    ((handle_packet_eventbus_publish sq (.malformed r) s).errors =
       s.errors ++ ["Invalid EVENTBUSPUBLISH"] ∧
     (handle_packet_eventbus_publish sq (.malformed r) s).msgs =
       s.msgs ++ ["Kismet external interface got unparseable EVENTBUSPUBLISH"]) := by
  have hlog : ∀ m : String, (logMsg m s).stopped = false := fun m => hs
  refine ⟨?_, ?_, ?_, ?_, ?_, ?_, ?_, ?_⟩ <;>
    simp [handle_packet_message, handle_packet_pong, handle_packet_shutdown,
      handle_packet_http_register, handle_packet_http_response,
      handle_packet_http_auth_request, handle_packet_eventbus_register,
      handle_packet_eventbus_publish, parse_message, parse_pong, parse_shutdown,
      parse_http_register, parse_http_response, parse_http_auth_request,
      parse_eventbus_register, parse_eventbus_publish, trigger_error, hs,
      logMsg, handle_error, close_external, ipc_hard_kill, close_ipc_pipes] <;>
    by_cases hp : (0 : Int) < s.ipc_pid <;> simp [hp]

/-- Closed witness for `unparsable_error_strings` at a running endpoint. -/
theorem unparsable_error_strings_witness :
    (handle_packet_message 1 (.malformed "x")
        { init_endpoint with stopped := false }).errors = ["Invalid MESSAGE"] ∧
    (handle_packet_http_response 1 (.malformed "x")
        { init_endpoint with stopped := false }).errors = ["Invalid  HTTPRESPONSE"] := by
  have h := unparsable_error_strings { init_endpoint with stopped := false } "x" 1 "t" rfl
  exact ⟨h.1.1.trans (by decide), h.2.2.2.2.1.1.trans (by decide)⟩

end KisExternal
